import Mathlib

/-!
Verification development for the CRT Spaceship repository (a browser arcade
shooter plus a telemetry module).

The telemetry definitions are shallow embeddings of `src/js/telemetry.js`.
The game-core definitions embed the game loop documented by the repository:
the game page itself (`index.html`) is not among the repository's files, so
those definitions are modelled from the spec's words and from the code
excerpts the repository's wiki keeps (`src/wiki/Code-Architecture.md`).

Numbers: JS numbers that matter here are either small integers (scores,
counters, character codes) modelled as `Nat`, or exact decimal constants
(0.15, 0.2, 10, 20) on which the game's arithmetic stays rational, modelled
as `ℚ`.
-/

namespace CRT

/-! ## Telemetry: encryptData / decryptData (src/js/telemetry.js, lines 27-53)

`encryptData` JSON-serializes a value, XORs the serialization's UTF-16 code
units with the repeating key, and base64-encodes the result with `btoa`;
`decryptData` inverts the three steps.  The JSON layer is the browser's
built-in `JSON.stringify` / `JSON.parse` pair; the embedding works on the
serialized string as its list of code units (`charCodeAt` values). -/

/-- Code units of the key `'CRT_SPACESHIP_LOG_KEY_2024'` (telemetry.js line 12). -/
def ENCRYPTION_KEY : List Nat := "CRT_SPACESHIP_LOG_KEY_2024".data.map Char.toNat

/-- `MAX_LOGS` (telemetry.js line 14). -/
def MAX_LOGS : Nat := 100

/-- The repeating-key XOR stream of telemetry.js (lines 30-33 and 44-47):
position `i` of the data is XORed with key position `i % key.length`. -/
def xorStream (i : Nat) : List Nat → List Nat
  | [] => []
  | c :: rest =>
      (c ^^^ ENCRYPTION_KEY.getD (i % ENCRYPTION_KEY.length) 0) :: xorStream (i + 1) rest

/-- Byte triples to base64 sextets, as `btoa` groups its input: each 3 input
bytes become 4 six-bit values; a trailing pair or single byte becomes 3 or 2
sextets. -/
def toSextets : List Nat → List Nat
  | a :: b :: c :: rest =>
      a / 4 :: ((a % 4) * 16 + b / 16) :: ((b % 16) * 4 + c / 64) :: c % 64 :: toSextets rest
  | [a, b] => [a / 4, (a % 4) * 16 + b / 16, (b % 16) * 4]
  | [a] => [a / 4, (a % 4) * 16]
  | [] => []

/-- Base64 sextets back to bytes, as `atob` regroups them: each 4 sextets give
3 bytes, a trailing group of 3 or 2 sextets gives 2 or 1 bytes. -/
def fromSextets : List Nat → List Nat
  | s1 :: s2 :: s3 :: s4 :: rest =>
      (s1 * 4 + s2 / 16) :: ((s2 % 16) * 16 + s3 / 4) :: ((s3 % 4) * 64 + s4) :: fromSextets rest
  | [s1, s2, s3] => [s1 * 4 + s2 / 16, (s2 % 16) * 16 + s3 / 4]
  | [s1, s2] => [s1 * 4 + s2 / 16]
  | _ => []

/-- The base64 alphabet as `btoa` writes it: sextet to ASCII code
(`A-Z`, `a-z`, `0-9`, `+`, `/`). -/
def b64Char (s : Nat) : Nat :=
  if s < 26 then 65 + s
  else if s < 52 then 97 + (s - 26)
  else if s < 62 then 48 + (s - 52)
  else if s = 62 then 43
  else 47

/-- The base64 alphabet as `atob` reads it: ASCII code back to sextet. -/
def b64Val (c : Nat) : Nat :=
  if 65 ≤ c ∧ c ≤ 90 then c - 65
  else if 97 ≤ c ∧ c ≤ 122 then c - 97 + 26
  else if 48 ≤ c ∧ c ≤ 57 then c - 48 + 52
  else if c = 43 then 62
  else 63

/-- The `'='` padding (ASCII 61) `btoa` appends so its output length is a
multiple of 4. -/
def b64Pad (n : Nat) : List Nat := List.replicate ((4 - n % 4) % 4) 61

/-- `btoa` on a byte string (each element a code unit below 256), as a list of
output character codes. -/
def btoaM (bytes : List Nat) : List Nat :=
  let sx := (toSextets bytes).map b64Char
  sx ++ b64Pad sx.length

/-- `atob` on a base64 string: padding dropped, characters mapped back to
sextets, sextets regrouped into bytes. -/
def atobM (s : List Nat) : List Nat :=
  fromSextets ((s.filter (fun c => c != 61)).map b64Val)

/-- `encryptData` of telemetry.js (lines 27-35), at the level of the JSON
serialization's code units: XOR with the repeating key, then `btoa`. -/
def encryptData (codes : List Nat) : List Nat := btoaM (xorStream 0 codes)

/-- `decryptData` of telemetry.js (lines 40-53), at the level of the JSON
serialization's code units: `atob`, then XOR with the repeating key. -/
def decryptData (s : List Nat) : List Nat := xorStream 0 (atobM s)

/-- `storeLogs` of telemetry.js (lines 328-354), at the level of the decrypted
log array: the stored array (or `[]` when nothing valid is stored, matching
the `decryptData`/`Array.isArray` guard) is concatenated with the new logs and
`slice(-MAX_LOGS)` keeps the last `MAX_LOGS` entries when the total exceeds
`MAX_LOGS`; the result is what gets encrypted and written back. -/
def storeLogs {α : Type} (stored : Option (List α)) (newLogs : List α) : List α :=
  let existing := stored.getD []
  let all := existing ++ newLogs
  if MAX_LOGS < all.length then all.drop (all.length - MAX_LOGS) else all

/-! ### Telemetry lemmas -/

theorem encryptionKey_lt_256 : ∀ k ∈ ENCRYPTION_KEY, k < 256 := by decide

theorem xorStream_involutive (l : List Nat) : ∀ i, xorStream i (xorStream i l) = l := by
  induction l with
  | nil => intro i; rfl
  | cons c rest ih =>
      intro i
      simp only [xorStream, ih]
      rw [Nat.xor_assoc, Nat.xor_self, Nat.xor_zero]

theorem xorStream_lt_256 (l : List Nat) (hl : ∀ c ∈ l, c < 256) :
    ∀ i, ∀ c ∈ xorStream i l, c < 256 := by
  induction l with
  | nil => intro i c hc; simp [xorStream] at hc
  | cons a rest ih =>
      intro i c hc
      simp only [xorStream, List.mem_cons] at hc
      rcases hc with h | h
      · subst h
        have ha : a < 256 := hl a (List.mem_cons_self _ _)
        have hk : ENCRYPTION_KEY.getD (i % ENCRYPTION_KEY.length) 0 < 256 := by
          have hall : ∀ j, j < 26 → ENCRYPTION_KEY.getD j 0 < 256 := by decide
          have hlen : ENCRYPTION_KEY.length = 26 := by decide
          rw [hlen]
          exact hall _ (Nat.mod_lt _ (by omega))
        have h28 : (256 : Nat) = 2 ^ 8 := by norm_num
        rw [h28] at ha hk ⊢
        exact Nat.xor_lt_two_pow ha hk
      · exact ih (fun c hc => hl c (List.mem_cons_of_mem _ hc)) (i + 1) c h

theorem toSextets_lt_64 : ∀ l : List Nat, (∀ c ∈ l, c < 256) → ∀ s ∈ toSextets l, s < 64
  | [], _, s, hs => by simp [toSextets] at hs
  | [a], h, s, hs => by
      have ha : a < 256 := h a (by simp)
      simp only [toSextets, List.mem_cons, List.not_mem_nil, or_false] at hs
      rcases hs with h1 | h1 <;> omega
  | [a, b], h, s, hs => by
      have ha : a < 256 := h a (by simp)
      have hb : b < 256 := h b (by simp)
      simp only [toSextets, List.mem_cons, List.not_mem_nil, or_false] at hs
      rcases hs with h1 | h1 | h1 <;> omega
  | a :: b :: c :: rest, h, s, hs => by
      have ha : a < 256 := h a (by simp)
      have hb : b < 256 := h b (by simp)
      have hc : c < 256 := h c (by simp)
      simp only [toSextets, List.mem_cons] at hs
      rcases hs with h1 | h1 | h1 | h1 | h1
      · omega
      · omega
      · omega
      · omega
      · exact toSextets_lt_64 rest (fun x hx => h x (by simp [hx])) s h1

theorem fromSextets_toSextets :
    ∀ l : List Nat, (∀ c ∈ l, c < 256) → fromSextets (toSextets l) = l
  | [], _ => rfl
  | [a], h => by
      have ha : a < 256 := h a (by simp)
      simp only [toSextets, fromSextets]
      congr 1
      omega
  | [a, b], h => by
      have ha : a < 256 := h a (by simp)
      have hb : b < 256 := h b (by simp)
      simp only [toSextets, fromSextets]
      congr 1
      · omega
      · congr 1
        omega
  | a :: b :: c :: rest, h => by
      have ha : a < 256 := h a (by simp)
      have hb : b < 256 := h b (by simp)
      have hc : c < 256 := h c (by simp)
      have ih := fromSextets_toSextets rest (fun x hx => h x (by simp [hx]))
      simp only [toSextets, fromSextets, ih]
      congr 1
      · omega
      · congr 1
        · omega
        · congr 1
          omega

theorem b64Val_b64Char : ∀ s, s < 64 → b64Val (b64Char s) = s := by decide

theorem b64Char_ne_61 : ∀ s, s < 64 → b64Char s ≠ 61 := by decide

theorem atobM_btoaM (l : List Nat) (hl : ∀ c ∈ l, c < 256) : atobM (btoaM l) = l := by
  have hsx : ∀ s ∈ toSextets l, s < 64 := toSextets_lt_64 l hl
  unfold btoaM atobM
  have hpad : ∀ c ∈ b64Pad ((toSextets l).map b64Char).length, c = 61 := by
    intro c hc
    exact (List.eq_of_mem_replicate hc)
  rw [List.filter_append]
  have h1 : ((toSextets l).map b64Char).filter (fun c => c != 61) =
      (toSextets l).map b64Char := by
    apply List.filter_eq_self.mpr
    intro c hc
    rcases List.mem_map.mp hc with ⟨s, hs, rfl⟩
    simpa using b64Char_ne_61 s (hsx s hs)
  have h2 : (b64Pad ((toSextets l).map b64Char).length).filter (fun c => c != 61) = [] := by
    apply List.filter_eq_nil_iff.mpr
    intro c hc
    simpa using hpad c hc
  rw [h1, h2, List.append_nil, List.map_map]
  simp only [Function.comp_def]
  have h3 : (toSextets l).map (fun s => b64Val (b64Char s)) = (toSextets l).map (fun s => s) :=
    List.map_congr_left (fun s hs => b64Val_b64Char s (hsx s hs))
  rw [h3, List.map_id']
  exact fromSextets_toSextets l hl

/-- C9: for every telemetry log value whose JSON serialization consists of
code units below 256, `decryptData (encryptData v)` recovers the value: the
repeating-key XOR stream is self-inverse and the base64 encode/decode pair
round-trips, so the serialized string — hence the parsed value — is returned
structurally equal. -/
theorem decryptData_encryptData (codes : List Nat) (h : ∀ c ∈ codes, c < 256) :
    decryptData (encryptData codes) = codes := by
  unfold encryptData decryptData
  rw [atobM_btoaM _ (xorStream_lt_256 codes h 0)]
  exact xorStream_involutive codes 0

/-- Witness for C9 at the code units of the JSON string `{"v":42}`. -/
theorem decryptData_encryptData_witness :
    (∀ c ∈ [123, 34, 118, 34, 58, 52, 50, 125], c < 256) ∧
      decryptData (encryptData [123, 34, 118, 34, 58, 52, 50, 125]) =
        [123, 34, 118, 34, 58, 52, 50, 125] :=
  ⟨by decide, decryptData_encryptData [123, 34, 118, 34, 58, 52, 50, 125] (by decide)⟩

/-- C10: after every successful `storeLogs` call the decrypted stored array
has length at most `MAX_LOGS = 100`, equals the previously stored logs
concatenated with the new logs truncated to the last 100 elements, and is a
suffix (the most recent entries) of that concatenation. -/
theorem storeLogs_keeps_latest {α : Type} (stored : Option (List α)) (newLogs : List α) :
    (storeLogs stored newLogs).length ≤ MAX_LOGS ∧
      storeLogs stored newLogs =
        (stored.getD [] ++ newLogs).drop ((stored.getD [] ++ newLogs).length - MAX_LOGS) ∧
      storeLogs stored newLogs <:+ stored.getD [] ++ newLogs := by
  have h0 : storeLogs stored newLogs =
      if MAX_LOGS < (stored.getD [] ++ newLogs).length then
        (stored.getD [] ++ newLogs).drop ((stored.getD [] ++ newLogs).length - MAX_LOGS)
      else stored.getD [] ++ newLogs := rfl
  rw [h0]
  by_cases h : MAX_LOGS < (stored.getD [] ++ newLogs).length
  · rw [if_pos h]
    refine ⟨?_, rfl, List.drop_suffix _ _⟩
    rw [List.length_drop]
    omega
  · rw [if_neg h]
    refine ⟨by omega, ?_, List.suffix_refl _⟩
    rw [Nat.sub_eq_zero_of_le (by omega), List.drop_zero]

/-! ## Game core

The game page (`index.html`) is not among the repository's files; the
definitions below are modelled from the spec and from the code excerpts kept
in `src/wiki/Code-Architecture.md` (the wiki documents the page's code with
literal snippets and constants). -/

/-- Modelled from the spec: the missing game page's `Bullet` entity —
position, fixed upward speed, active flag (spec §3; wiki "Shooting"). -/
structure Bullet where
  x : ℚ
  y : ℚ
  active : Bool

/-- Modelled from the spec: the missing game page's `Enemy` entity — position,
30×30 bounding box, per-wave speed, active flag (spec §3; wiki "Enemy System"). -/
structure Enemy where
  x : ℚ
  y : ℚ
  width : ℚ
  height : ℚ
  speed : ℚ
  active : Bool

/-- Modelled from the spec: the missing game page's `Explosion` entity as the
collision handler creates it — its position (the sub-particle decay plays no
part in the claims below). -/
structure Explosion where
  x : ℚ
  y : ℚ

/-- Modelled from the spec: the score / explosion list / explosion-sound
events the missing game loop mutates on a hit. -/
structure HitState where
  score : Nat
  explosions : List Explosion
  sounds : Nat

/-- Modelled from the spec: the missing game page's bullet-enemy test, the
wiki's excerpt verbatim — `bullet.x > enemy.x && bullet.x < enemy.x +
enemy.width && bullet.y > enemy.y && bullet.y < enemy.y + enemy.height`
(src/wiki/Code-Architecture.md, "Bullet-Enemy Collision"). -/
def hitTest (b : Bullet) (e : Enemy) : Bool :=
  decide (e.x < b.x) && decide (b.x < e.x + e.width) &&
    decide (e.y < b.y) && decide (b.y < e.y + e.height)

/-- Modelled from the spec: the missing game page's per-pair collision
handler — when both participants are active and the point test passes, both
deactivate, the score gains 100, one Explosion spawns at the enemy's position
and one explosion-sound event fires. -/
def collidePair (b : Bullet) (e : Enemy) (s : HitState) : Bullet × Enemy × HitState :=
  if b.active && e.active && hitTest b e then
    ({ b with active := false }, { e with active := false },
      { score := s.score + 100,
        explosions := s.explosions ++ [{ x := e.x, y := e.y }],
        sounds := s.sounds + 1 })
  else (b, e, s)

/-- Modelled from the spec: one bullet against the enemy list, as the missing
game loop's nested collision scan visits it. -/
def collideBulletEnemies (b : Bullet) (es : List Enemy) (s : HitState) :
    Bullet × List Enemy × HitState :=
  es.foldl
    (fun acc e =>
      let r := collidePair acc.1 e acc.2.2
      (r.1, acc.2.1 ++ [r.2.1], r.2.2))
    (b, [], s)

/-- Modelled from the spec: the missing game loop's O(bullets × enemies)
collision scan (spec §4.2). -/
def runCollisions (bs : List Bullet) (es : List Enemy) (s : HitState) :
    List Bullet × List Enemy × HitState :=
  bs.foldl
    (fun acc b =>
      let r := collideBulletEnemies b acc.2.1 acc.2.2
      (acc.1 ++ [r.1], r.2.1, r.2.2))
    ([], es, s)

/-- Modelled from the spec: the missing game page's enemy spawn probability
`0.015 * wave` (wiki "Spawning"). -/
def spawnRate (wave : Nat) : ℚ := (3 / 200) * wave

/-- Modelled from the spec: the missing game page's enemy speed
`Math.random() * 2 + 1 + wave * 0.2`, with `r ∈ [0, 1)` the frame's random
draw (wiki "Enemy Movement"). -/
def enemySpeed (r : ℚ) (wave : Nat) : ℚ := r * 2 + 1 + (wave : ℚ) * (1 / 5)

/-- Modelled from the spec: the missing game page's enemy constructor —
random x, y = −50, 30×30 box, per-wave speed, active (wiki "Spawning"). -/
def mkEnemy (rx r : ℚ) (wave : Nat) : Enemy :=
  { x := rx, y := -50, width := 30, height := 30, speed := enemySpeed r wave, active := true }

/-- Modelled from the spec: the missing game page's `Enemy.update` — move
straight down by the enemy's speed. -/
def Enemy.update (e : Enemy) : Enemy := { e with y := e.y + e.speed }

/-- Modelled from the spec: the missing game loop's off-screen check for
enemies — deactivated when `y > height` (wiki "Object Cleanup"). -/
def enemyOffscreenCheck (height : ℚ) (e : Enemy) : Enemy :=
  if height < e.y then { e with active := false } else e

/-- Modelled from the spec: the missing game page's bullet constructor —
created at the player's position, active. -/
def mkBullet (x y : ℚ) : Bullet := { x := x, y := y, active := true }

/-- Modelled from the spec: the missing game page's `Bullet.update` — move up
by the fixed bullet speed of 10 pixels per frame (wiki "Shooting"). -/
def Bullet.update (b : Bullet) : Bullet := { b with y := b.y - 10 }

/-- Modelled from the spec: the missing game loop's off-screen check for
bullets — deactivated when `y < 0` (wiki "Object Cleanup"). -/
def bulletOffscreenCheck (b : Bullet) : Bullet :=
  if b.y < 0 then { b with active := false } else b

/-- Modelled from the spec: the missing game loop's once-per-frame pruning of
inactive bullets. -/
def pruneBullets (bs : List Bullet) : List Bullet := bs.filter (fun b => b.active)

/-- Modelled from the spec: the missing game loop's once-per-frame pruning of
inactive enemies. -/
def pruneEnemies (es : List Enemy) : List Enemy := es.filter (fun e => e.active)

/-- Modelled from the spec: the missing game loop's wave check — the counter
advances when `score > wave * 1000` (wiki "Wave Progression"). -/
def updateWave (score wave : Nat) : Nat :=
  if wave * 1000 < score then wave + 1 else wave

/-- Modelled from the spec: the missing game page's `player` object. -/
structure Player where
  x : ℚ
  y : ℚ
  targetX : ℚ
  width : ℚ
  height : ℚ

/-- Modelled from the spec: the missing game loop's player movement —
`player.x += (targetX - player.x) * 0.15`, clamped 20 px from either screen
edge (wiki "Player Movement"). -/
def Player.update (p : Player) (t w : ℚ) : Player :=
  { p with x := min (max (p.x + (t - p.x) * (3 / 20)) 20) (w - 20), targetX := t }

/-- Modelled from the spec: the per-frame inputs and random draws the missing
game loop consumes in one frame. -/
structure FrameEnv where
  targetX : ℚ
  width : ℚ
  height : ℚ
  tapped : Bool
  spawnRoll : ℚ
  spawnX : ℚ
  spawnJitter : ℚ

/-- Modelled from the spec: the missing game loop's session state — the one
player, the live entity collections and the score/wave counters (spec §3). -/
structure GameState where
  player : Player
  bullets : List Bullet
  enemies : List Enemy
  explosions : List Explosion
  score : Nat
  wave : Nat
  sounds : Nat

/-- Modelled from the spec: one frame of the missing game loop, in the spec's
fixed order (§4.1) — move the player toward the input target, possibly spawn
an enemy, possibly spawn a bullet on a tap, advance bullets and enemies with
their off-screen checks, run collision detection, advance the wave, prune
inactive entities. -/
def stepFrame (g : GameState) (env : FrameEnv) : GameState :=
  let p := Player.update g.player env.targetX env.width
  let spawned :=
    if env.spawnRoll < spawnRate g.wave then
      g.enemies ++ [mkEnemy env.spawnX env.spawnJitter g.wave]
    else g.enemies
  let shot := if env.tapped then g.bullets ++ [mkBullet p.x p.y] else g.bullets
  let movedB := shot.map (fun b => bulletOffscreenCheck (Bullet.update b))
  let movedE := spawned.map (fun e => enemyOffscreenCheck env.height (Enemy.update e))
  let res := runCollisions movedB movedE
    { score := g.score, explosions := g.explosions, sounds := g.sounds }
  { player := p
    bullets := pruneBullets res.1
    enemies := pruneEnemies res.2.1
    explosions := res.2.2.explosions
    score := res.2.2.score
    wave := updateWave res.2.2.score g.wave
    sounds := res.2.2.sounds }

/-- Modelled from the spec: a session of the missing game loop, one
`stepFrame` per animation frame. -/
def runSession (g : GameState) (envs : List FrameEnv) : GameState :=
  envs.foldl stepFrame g

/-! ## Ambient particle system -/

/-- Modelled from the spec: the missing game page's ambient `Particle` —
position, velocity, size, alpha (spec §3). -/
structure Particle where
  x : ℚ
  y : ℚ
  vx : ℚ
  vy : ℚ
  size : ℚ
  alpha : ℚ

/-- Modelled from the spec: the missing game page's particle-pool size,
`Math.min((width * height) / 4000, 200)` (wiki "Background Particles";
src/wiki/Performance-Tuning.md keeps the line verbatim). -/
def particleCount (w h : Nat) : Nat := min (w * h / 4000) 200

/-- Modelled from the spec: the missing game page's particle-pool
initialization at startup and on resize — `particleCount` particles, each
randomized by `reset()`; the random draws enter through `f`. -/
def initParticles (w h : Nat) (f : Nat → Particle) : List Particle :=
  (List.range (particleCount w h)).map f

/-- Modelled from the spec: the missing game page's toroidal screen wrap —
a coordinate leaving one edge re-enters at the opposite edge. -/
def wrapCoord (x w : ℚ) : ℚ :=
  if x < 0 then x + w else if w < x then x - w else x

/-- Modelled from the spec: the missing game page's per-frame particle
physics — pointer repulsion within a 200 px radius with force
`(200 − dist) / 200` and push `15 * force * 0.1` along the outward direction,
friction 0.98, drift, and wrap at the screen edges; `sqrtFn` stands for the
environment's `Math.sqrt`. -/
def Particle.update (sqrtFn : ℚ → ℚ) (ptr : Option (ℚ × ℚ)) (w h : ℚ)
    (p : Particle) : Particle :=
  let pushed :=
    match ptr with
    | none => p
    | some q =>
        let dx := p.x - q.1
        let dy := p.y - q.2
        let dist := sqrtFn (dx * dx + dy * dy)
        if dist < 200 ∧ dist ≠ 0 then
          let force := (200 - dist) / 200
          { p with
            vx := p.vx + dx / dist * (15 * force * (1 / 10)),
            vy := p.vy + dy / dist * (15 * force * (1 / 10)) }
        else p
  { pushed with
    x := wrapCoord (pushed.x + pushed.vx) w,
    y := wrapCoord (pushed.y + pushed.vy) h,
    vx := pushed.vx * (49 / 50),
    vy := pushed.vy * (49 / 50) }

/-- Modelled from the spec: one frame of the missing game page's ambient
particle system — every particle updates in place; none is created or
destroyed. -/
def updateParticles (sqrtFn : ℚ → ℚ) (ptr : Option (ℚ × ℚ)) (w h : ℚ)
    (ps : List Particle) : List Particle :=
  ps.map (Particle.update sqrtFn ptr w h)

/-! ## AudioEngine -/

/-- Modelled from the spec: the missing game page's Web Audio context handle,
reduced to what the claims need — a fresh-node-id counter standing for the
context's node allocation. -/
structure AudioCtx where
  nextNodeId : Nat

/-- Modelled from the spec: a transient synthesis graph, as the set of the
audio nodes a play function created for one sound event. -/
structure SynthGraph where
  nodes : List Nat

/-- Modelled from the spec: what happens when a play function of the missing
game page runs without an audio context — `this.ctx` does not exist yet and
the node-creation call throws. -/
inductive AudioError where
  | noContext
deriving DecidableEq

/-- Modelled from the spec: `AudioEngine.init()` of the missing game page —
creates the shared audio context (on the start-button user gesture). -/
def AudioEngine.init : Option AudioCtx := some { nextNodeId := 0 }

/-- Modelled from the spec: the synthesis graph `playShoot` builds on a live
context — an oscillator and a gain node, both freshly created. -/
def mkShootGraph (c : AudioCtx) : SynthGraph × AudioCtx :=
  ({ nodes := [c.nextNodeId, c.nextNodeId + 1] }, { nextNodeId := c.nextNodeId + 2 })

/-- Modelled from the spec: the synthesis graph `playExplosion` builds on a
live context — a noise buffer source, a lowpass filter and a gain node, all
freshly created (wiki "Explosion Sound" excerpt). -/
def mkExplosionGraph (c : AudioCtx) : SynthGraph × AudioCtx :=
  ({ nodes := [c.nextNodeId, c.nextNodeId + 1, c.nextNodeId + 2] },
    { nextNodeId := c.nextNodeId + 3 })

/-- Modelled from the spec: the synthesis graph `playAmbience` builds on a
live context — an oscillator and a gain node. -/
def mkAmbienceGraph (c : AudioCtx) : SynthGraph × AudioCtx :=
  ({ nodes := [c.nextNodeId, c.nextNodeId + 1] }, { nextNodeId := c.nextNodeId + 2 })

/-- Modelled from the spec: `AudioEngine.playShoot()` as the wiki's excerpt
has it — it dereferences `this.ctx` unconditionally, so without a context the
call fails instead of being a no-op. -/
def playShoot : Option AudioCtx → Except AudioError (SynthGraph × AudioCtx)
  | none => .error .noContext
  | some c => .ok (mkShootGraph c)

/-- Modelled from the spec: `AudioEngine.playExplosion()` as the wiki's
excerpt has it — unguarded `this.ctx` dereference. -/
def playExplosion : Option AudioCtx → Except AudioError (SynthGraph × AudioCtx)
  | none => .error .noContext
  | some c => .ok (mkExplosionGraph c)

/-- Modelled from the spec: `AudioEngine.playAmbience()` as the wiki's
excerpt has it — unguarded `this.ctx` dereference. -/
def playAmbience : Option AudioCtx → Except AudioError (SynthGraph × AudioCtx)
  | none => .error .noContext
  | some c => .ok (mkAmbienceGraph c)

/-! ## Game-core lemmas and claim theorems -/

theorem le_updateWave (s w : Nat) : w ≤ updateWave s w := by
  unfold updateWave
  split <;> omega

theorem wave_le_stepFrame (g : GameState) (env : FrameEnv) :
    g.wave ≤ (stepFrame g env).wave :=
  le_updateWave _ _

theorem wave_le_runSession (envs : List FrameEnv) :
    ∀ g : GameState, g.wave ≤ (runSession g envs).wave := by
  induction envs with
  | nil => intro g; exact le_refl _
  | cons env rest ih =>
      intro g
      exact le_trans (wave_le_stepFrame g env) (ih (stepFrame g env))

/-- C1: for an active bullet and an active enemy, the collision handler
detects a hit iff the bullet's point lies strictly inside the enemy's
bounding box (ex < x < ex+w and ey < y < ey+h); on a hit both participants
deactivate, the score gains exactly 100, exactly one Explosion is appended
at the enemy's position and one explosion-sound event fires; on a miss
nothing changes. -/
theorem collidePair_spec (b : Bullet) (e : Enemy) (s : HitState)
    (hb : b.active = true) (he : e.active = true) :
    (hitTest b e = true ↔
      (e.x < b.x ∧ b.x < e.x + e.width ∧ e.y < b.y ∧ b.y < e.y + e.height)) ∧
    (hitTest b e = true →
      (collidePair b e s).1.active = false ∧
      (collidePair b e s).2.1.active = false ∧
      (collidePair b e s).2.2.score = s.score + 100 ∧
      (collidePair b e s).2.2.explosions = s.explosions ++ [{ x := e.x, y := e.y }] ∧
      (collidePair b e s).2.2.sounds = s.sounds + 1) ∧
    (hitTest b e = false → collidePair b e s = (b, e, s)) := by
  refine ⟨?_, ?_, ?_⟩
  · simp [hitTest, and_assoc]
  · intro hh
    simp [collidePair, hb, he, hh]
  · intro hh
    simp [collidePair, hh]

/-- Witness for C1 at the spec's end-to-end scenario: bullet at (100,100),
enemy box [90,120]×[90,120], one collision call, score gains 100. -/
theorem collidePair_spec_witness :
    (collidePair ⟨100, 100, true⟩ ⟨90, 90, 30, 30, 2, true⟩ ⟨0, [], 0⟩).2.2.score = 0 + 100 :=
  ((collidePair_spec ⟨100, 100, true⟩ ⟨90, 90, 30, 30, 2, true⟩ ⟨0, [], 0⟩ rfl rfl).2.1
    (by norm_num [hitTest])).2.2.1

/-- C2: the wave counter advances exactly when score > wave × 1000 and is
never decremented — it is non-decreasing over any single frame and over any
whole session — and advancing the wave never decreases the enemy spawn
probability or the enemy speed. -/
theorem wave_progression (score w w' : Nat) (r : ℚ) (g : GameState)
    (env : FrameEnv) (envs : List FrameEnv) (hww : w ≤ w') :
    (updateWave score w = w + 1 ↔ w * 1000 < score) ∧
    (¬ w * 1000 < score → updateWave score w = w) ∧
    w ≤ updateWave score w ∧
    g.wave ≤ (stepFrame g env).wave ∧
    g.wave ≤ (runSession g envs).wave ∧
    spawnRate w ≤ spawnRate w' ∧
    enemySpeed r w ≤ enemySpeed r w' := by
  refine ⟨?_, ?_, le_updateWave _ _, wave_le_stepFrame g env, wave_le_runSession envs g, ?_, ?_⟩
  · unfold updateWave
    split <;> omega
  · intro h
    unfold updateWave
    split <;> omega
  · unfold spawnRate
    have hc : (w : ℚ) ≤ (w' : ℚ) := by exact_mod_cast hww
    have h0 : (0 : ℚ) ≤ 3 / 200 := by norm_num
    exact mul_le_mul_of_nonneg_left hc h0
  · unfold enemySpeed
    have hc : (w : ℚ) ≤ (w' : ℚ) := by exact_mod_cast hww
    have h5 : (0 : ℚ) ≤ 1 / 5 := by norm_num
    have := mul_le_mul_of_nonneg_right hc h5
    linarith

/-- Witness for C2: at score 1500 and wave 1 the wave advances, since
1 × 1000 < 1500. -/
theorem wave_progression_witness :
    updateWave 1500 1 = 1 + 1 ↔ 1 * 1000 < 1500 :=
  (wave_progression 1500 1 2 0 ⟨⟨0, 0, 0, 40, 20⟩, [], [], [], 0, 1, 0⟩
    ⟨0, 800, 600, false, 1, 0, 0⟩ [] (by omega)).1

/-- C3: a spawned enemy's speed is (random jitter) + 1 + wave × 0.2 (the
jitter being 2r for the frame's random draw r ∈ [0,1)); every frame an
active enemy's y-coordinate increases by exactly its speed, strictly since
the speed is at least 1; the off-screen check deactivates it exactly when
its y-coordinate exceeds the canvas height (deactivation on collision is
the collision handler's, C1). -/
theorem enemy_movement (e : Enemy) (rx r height : ℚ) (wave : Nat)
    (hr : 0 ≤ r) (he : e.active = true) :
    (mkEnemy rx r wave).speed = r * 2 + 1 + (wave : ℚ) * (1 / 5) ∧
    (Enemy.update e).y = e.y + e.speed ∧
    1 ≤ (mkEnemy rx r wave).speed ∧
    (mkEnemy rx r wave).y < (Enemy.update (mkEnemy rx r wave)).y ∧
    ((enemyOffscreenCheck height e).active = false ↔ height < e.y) := by
  have hsp : 1 ≤ (mkEnemy rx r wave).speed := by
    show 1 ≤ r * 2 + 1 + (wave : ℚ) * (1 / 5)
    have h1 : (0 : ℚ) ≤ r * 2 := mul_nonneg hr (by norm_num)
    have h2 : (0 : ℚ) ≤ (wave : ℚ) * (1 / 5) :=
      mul_nonneg (Nat.cast_nonneg wave) (by norm_num)
    linarith
  refine ⟨rfl, rfl, hsp, ?_, ?_⟩
  · show (mkEnemy rx r wave).y < (mkEnemy rx r wave).y + (mkEnemy rx r wave).speed
    linarith
  · unfold enemyOffscreenCheck
    split <;> simp_all

/-- Witness for C3: with zero jitter at wave 1 the spawned enemy's speed is
at least 1, so its descent is strict. -/
theorem enemy_movement_witness : 1 ≤ (mkEnemy 100 0 1).speed :=
  (enemy_movement ⟨100, -50, 30, 30, 2, true⟩ 100 0 600 1 (le_refl 0) rfl).2.2.1

/-- C4: a bullet's y-coordinate strictly decreases by its fixed speed of 10
pixels each frame; the off-screen check deactivates it exactly when y < 0,
the collision handler deactivates it on an enemy hit, and pruning removes
exactly the inactive bullets from the live collection. -/
theorem bullet_lifecycle (b : Bullet) (e : Enemy) (s : HitState)
    (bs : List Bullet) (hb : b.active = true) :
    (Bullet.update b).y = b.y - 10 ∧
    (Bullet.update b).y < b.y ∧
    ((bulletOffscreenCheck b).active = false ↔ b.y < 0) ∧
    (e.active = true → hitTest b e = true → (collidePair b e s).1.active = false) ∧
    (∀ b' : Bullet, b' ∈ pruneBullets bs ↔ b' ∈ bs ∧ b'.active = true) := by
  refine ⟨rfl, ?_, ?_, ?_, ?_⟩
  · show b.y - 10 < b.y
    linarith
  · unfold bulletOffscreenCheck
    split <;> simp_all
  · intro he hh
    simp [collidePair, hb, he, hh]
  · intro b'
    simp [pruneBullets, List.mem_filter]

/-- Witness for C4: a bullet at y = 100 moves to y = 100 − 10. -/
theorem bullet_lifecycle_witness :
    (Bullet.update ⟨100, 100, true⟩).y = (⟨100, 100, true⟩ : Bullet).y - 10 :=
  (bullet_lifecycle ⟨100, 100, true⟩ ⟨90, 200, 30, 30, 2, true⟩ ⟨0, [], 0⟩ [] rfl).1

/-- C5 (the code against the claim): the play functions dereference
`this.ctx` unconditionally, so calling any of them before `AudioEngine.init`
has created the audio context fails — it is not a no-op and not deferred. -/
theorem play_before_init_fails :
    playShoot none = .error .noContext ∧
    playExplosion none = .error .noContext ∧
    playAmbience none = .error .noContext :=
  ⟨rfl, rfl, rfl⟩

/-- C6: after particle-pool initialization (at startup and on resize) the
ambient particle count equals min(width × height / 4000, 200), and every
frame update maps each particle in place — wrapping at the screen edges,
never creating or destroying one — so the count is unchanged. -/
theorem particle_count_invariant (w h : Nat) (f : Nat → Particle)
    (sqrtFn : ℚ → ℚ) (ptr : Option (ℚ × ℚ)) (cw ch : ℚ) (ps : List Particle) :
    (initParticles w h f).length = min (w * h / 4000) 200 ∧
    (updateParticles sqrtFn ptr cw ch ps).length = ps.length ∧
    (updateParticles sqrtFn ptr cw ch (initParticles w h f)).length =
      min (w * h / 4000) 200 := by
  refine ⟨?_, ?_, ?_⟩ <;> simp [initParticles, updateParticles, particleCount]

/-- C7: two playExplosion calls on the same context build two synthesis
graphs whose node sets are disjoint — each call freshly allocates its noise
source, filter and gain — so the calls share no mutable state and neither
stops, alters or crashes the other's playback; both calls succeed. -/
theorem playExplosion_independent (c : AudioCtx) :
    List.Disjoint (mkExplosionGraph c).1.nodes
        (mkExplosionGraph (mkExplosionGraph c).2).1.nodes ∧
    playExplosion (some c) = .ok (mkExplosionGraph c) ∧
    playExplosion (some (mkExplosionGraph c).2) =
      .ok (mkExplosionGraph (mkExplosionGraph c).2) := by
  refine ⟨?_, rfl, rfl⟩
  intro a ha hb
  simp [mkExplosionGraph] at ha hb
  omega

/-- C8: every frame the player's x-coordinate moves by exponential
interpolation toward the input target, x += (targetX − x) × 0.15, and is
clamped at least 20 pixels from both screen edges; the frame step mutates
the session's one player through exactly this update — the player is created
once and never destroyed. -/
theorem player_movement (p : Player) (t w : ℚ) (g : GameState) (env : FrameEnv)
    (hw : 40 ≤ w) :
    (Player.update p t w).x = min (max (p.x + (t - p.x) * (3 / 20)) 20) (w - 20) ∧
    20 ≤ (Player.update p t w).x ∧
    (Player.update p t w).x ≤ w - 20 ∧
    (stepFrame g env).player = Player.update g.player env.targetX env.width := by
  refine ⟨rfl, ?_, ?_, rfl⟩
  · show 20 ≤ min (max (p.x + (t - p.x) * (3 / 20)) 20) (w - 20)
    exact le_min (le_max_right _ _) (by linarith)
  · exact min_le_right _ _

/-- Witness for C8: on an 800-wide canvas the updated player x stays at
least 20 px from the left edge. -/
theorem player_movement_witness :
    20 ≤ (Player.update ⟨100, 550, 100, 40, 20⟩ 400 800).x :=
  (player_movement ⟨100, 550, 100, 40, 20⟩ 400 800
    ⟨⟨0, 0, 0, 40, 20⟩, [], [], [], 0, 1, 0⟩
    ⟨0, 800, 600, false, 1, 0, 0⟩ (by norm_num)).2.1

end CRT
